import Mathlib

/-!
Shallow embedding of the ERAS disaster-lifecycle core (Django app `disasters`):
the `Disaster` model with its `save` hook and permission predicates
(`disasters/models.py`), the moderation / resolution / alert-dispatch /
response views (`disasters/views.py`), and the form validation rules
(`disasters/forms.py`).  Database tables are modelled as lists of rows;
`timezone.now()` is modelled as an explicit `now : Nat` parameter.
-/

namespace ERAS

/-- Status values of `Disaster.STATUS_CHOICES` in `disasters/models.py`. -/
inductive Status where
  | draft
  | pending
  | approved
  | rejected
  | resolved
  | cancelled
deriving DecidableEq, Repr

/-- The sixteen values of `Disaster.DISASTER_TYPE_CHOICES`. -/
inductive DisasterType where
  | earthquake
  | flood
  | cyclone_storm
  | wildfire
  | landslide
  | drought
  | tsunami
  | natural_other
  | building_fire
  | industrial_accident
  | chemical_spill
  | transportation_accident
  | bomb_threat
  | gas_leak
  | structural_collapse
  | manmade_other
deriving DecidableEq, Repr

/-- `Disaster.CATEGORY_CHOICES`. -/
inductive Category where
  | natural
  | manmade
deriving DecidableEq, Repr

/-- `Disaster.SEVERITY_CHOICES`. -/
inductive Severity where
  | critical
  | high
  | medium
  | low
deriving DecidableEq, Repr

/-- The `match_type` choices of the `DisasterAlert` model. -/
inductive MatchType where
  | exact
  | city
  | critical
deriving DecidableEq, Repr

/-- Display strings of `DISASTER_TYPE_CHOICES` (`get_disaster_type_display`). -/
def disasterTypeDisplay : DisasterType → String
  | .earthquake => "Earthquake"
  | .flood => "Flood"
  | .cyclone_storm => "Cyclone/Storm"
  | .wildfire => "Fire (Wildfire)"
  | .landslide => "Landslide"
  | .drought => "Drought"
  | .tsunami => "Tsunami"
  | .natural_other => "Natural - Others"
  | .building_fire => "Building Fire"
  | .industrial_accident => "Industrial Accident"
  | .chemical_spill => "Chemical Spill"
  | .transportation_accident => "Transportation Accident"
  | .bomb_threat => "Bomb Threat/Explosion"
  | .gas_leak => "Gas Leak"
  | .structural_collapse => "Structural Collapse"
  | .manmade_other => "Man-Made - Others"

/-- The `natural_types` list inside `Disaster.save` (`disasters/models.py`). -/
def naturalTypes : List DisasterType :=
  [.earthquake, .flood, .cyclone_storm, .wildfire,
   .landslide, .drought, .tsunami, .natural_other]

/-- The fields of the external `User` entity that the disaster core reads. -/
structure User where
  id : Nat
  is_superuser : Bool
deriving DecidableEq, Repr

/-- The fields of the `Disaster` model the claims are about.  `reporter`
stores the reporter's user id; timestamps are abstract `Nat` instants. -/
structure Disaster where
  id : Nat
  title : String
  disaster_type : DisasterType
  category : Category
  severity : Severity
  description : String
  city : String
  area_sector : String
  reporter : Nat
  status : Status
  approved_by : Option Nat
  approved_at : Option Nat
  rejection_reason : String
  resolved_at : Option Nat
deriving DecidableEq, Repr

/-- `Disaster.save` (`disasters/models.py` lines 102-121).  `old` is the row
currently in the database for this primary key (`none` on first insert);
`now` models `timezone.now()`.  Auto-generates the title when blank,
recomputes `category` from `disaster_type`, and stamps `approved_at` when
the status transitions into `approved` from a non-approved stored status. -/
def Disaster.save (now : Nat) (old : Option Disaster) (d : Disaster) : Disaster :=
  let d1 := if d.title = "" then
      { d with title := disasterTypeDisplay d.disaster_type ++ " in " ++ d.city }
    else d
  let d2 := if d.disaster_type ∈ naturalTypes then
      { d1 with category := .natural }
    else
      { d1 with category := .manmade }
  match old with
  | some o =>
      if o.status ≠ .approved ∧ d.status = .approved then
        { d2 with approved_at := some now }
      else d2
  | none => d2

/-- `Disaster.can_edit` (`disasters/models.py` lines 169-175). -/
def Disaster.can_edit (d : Disaster) (user : User) : Bool :=
  if user.is_superuser then true
  else if d.reporter = user.id ∧ d.status ∈ [Status.draft, Status.pending, Status.rejected] then
    true
  else false

/-- `Disaster.can_delete` (`disasters/models.py` lines 177-183). -/
def Disaster.can_delete (d : Disaster) (user : User) : Bool :=
  if user.is_superuser then true
  else if d.reporter = user.id ∧ d.status ∈ [Status.draft, Status.rejected] then
    true
  else false

/-- The location fields of a `CitizenProfile` or `ServiceProviderProfile`
read by the alert matcher (`user` is the owning user's id). -/
structure Profile where
  user : Nat
  city : String
  area_sector : String
deriving DecidableEq, Repr

/-- A row of the `DisasterAlert` table (`disaster` and `user` are ids). -/
structure Alert where
  disaster : Nat
  user : Nat
  match_type : MatchType
deriving DecidableEq, Repr

/-- `DisasterAlert.objects.filter(disaster=..., user=...).exists()`. -/
def alertExists (db : List Alert) (did uid : Nat) : Bool :=
  db.any fun a => a.disaster == did && a.user == uid

/-- The per-profile `match_type` computation inside `send_disaster_alerts`
(`disasters/views.py` lines 610-614 and 626-630). -/
def matchTypeFor (d : Disaster) (p : Profile) : MatchType :=
  if p.area_sector = d.area_sector then .exact
  else if d.severity = .critical then .critical
  else .city

/-- One profile loop of `send_disaster_alerts`: keep the profiles in the
disaster's city, drop those whose user already has an alert for this
disaster in the database, and build the pending `DisasterAlert` rows. -/
def collectAlerts (d : Disaster) (db : List Alert) (profiles : List Profile) :
    List Alert :=
  ((profiles.filter fun p => p.city == d.city).filter
      fun p => !alertExists db d.id p.user).map
    fun p => { disaster := d.id, user := p.user, match_type := matchTypeFor d p }

/-- `DisasterAlert.objects.bulk_create(alerts_to_create, ignore_conflicts=True)`
against the `unique_together = ('disaster', 'user')` constraint: each pending
row is inserted unless a row with the same (disaster, user) pair is already
present, in which case the conflict is ignored. -/
def bulkCreate (db : List Alert) (pending : List Alert) : List Alert :=
  pending.foldl
    (fun acc a => if alertExists acc a.disaster a.user then acc else acc ++ [a]) db

/-- `send_disaster_alerts` (`disasters/views.py` lines 593-644): returns the
new alert table and `len(alerts_to_create)`. -/
def send_disaster_alerts (d : Disaster) (citizens service : List Profile)
    (db : List Alert) : List Alert × Nat :=
  let toCreate := collectAlerts d db citizens ++ collectAlerts d db service
  (bulkCreate db toCreate, toCreate.length)

/-- Python's `str.strip()`: drop whitespace from both ends of the string. -/
def stripChars (s : String) : String :=
  String.mk (((s.data.dropWhile Char.isWhitespace).reverse.dropWhile
    Char.isWhitespace).reverse)

/-- `AdminDisasterForm.clean` (`disasters/forms.py` lines 329-337): the form
is invalid when the target status is `rejected` and the stripped rejection
reason is empty. -/
def adminFormValid (newStatus : Status) (reason : String) : Bool :=
  !(newStatus == Status.rejected && stripChars reason == "")

/-- `approve_disaster` (`disasters/views.py` lines 490-533), restricted to its
state effects: a non-superuser or an invalid form leaves everything
unchanged; otherwise the form sets `status` and `rejection_reason`, a
transition into `approved` from a non-approved status additionally stamps
`approved_by`/`approved_at` and dispatches alerts, and the disaster is saved
against its stored row. -/
def approve_disaster (actor : User) (newStatus : Status) (reason : String)
    (now : Nat) (d : Disaster) (citizens service : List Profile)
    (db : List Alert) : Disaster × List Alert :=
  if !actor.is_superuser then (d, db)
  else if !adminFormValid newStatus reason then (d, db)
  else
    let d1 := { d with status := newStatus, rejection_reason := reason }
    if newStatus = .approved ∧ d.status ≠ .approved then
      let d2 := { d1 with approved_by := some actor.id, approved_at := some now }
      (Disaster.save now (some d) d2, (send_disaster_alerts d2 citizens service db).1)
    else
      (Disaster.save now (some d) d1, db)

/-- `mark_resolved` (`disasters/views.py` lines 560-588): permission-denied
requests leave the disaster unchanged; otherwise the status is set to
`resolved` and `resolved_at` to now, with no check of the current status. -/
def mark_resolved (actor : User) (now : Nat) (d : Disaster) : Disaster :=
  if d.reporter ≠ actor.id ∧ ¬actor.is_superuser then d
  else Disaster.save now (some d) { d with status := .resolved, resolved_at := some now }

/-- The status-mutating operations a disaster can undergo after creation:
admin moderation (`approve_disaster`), resolution (`mark_resolved`),
submission of a draft (`create_disaster`, which sets `status = 'pending'`
and saves), and a reporter content edit (`edit_disaster`, which saves the
form fields without touching the status). -/
inductive Op where
  | moderate (actor : User) (newStatus : Status) (reason : String) (now : Nat)
  | resolve (actor : User) (now : Nat)
  | submit (now : Nat)
  | edit (actor : User) (title : String) (ty : DisasterType) (sev : Severity)
      (descr city area : String) (now : Nat)

/-- Apply one operation to a stored disaster row (alert bookkeeping of
`moderate` is dropped: it does not touch the disaster's own fields). -/
def applyOp (op : Op) (d : Disaster) : Disaster :=
  match op with
  | .moderate actor s r now => (approve_disaster actor s r now d [] [] []).1
  | .resolve actor now => mark_resolved actor now d
  | .submit now => Disaster.save now (some d) { d with status := .pending }
  | .edit actor t ty sev descr city area now =>
      if d.can_edit actor then
        Disaster.save now (some d)
          { d with title := t, disaster_type := ty, severity := sev,
                   description := descr, city := city, area_sector := area }
      else d

/-- Run a list of operations left to right. -/
def runOps (d : Disaster) : List Op → Disaster
  | [] => d
  | op :: rest => runOps (applyOp op d) rest

/-- The disaster's status is `approved` at some point along the run
(including the starting row and every intermediate row). -/
def everApproved (d : Disaster) : List Op → Prop
  | [] => d.status = .approved
  | op :: rest => d.status = .approved ∨ everApproved (applyOp op d) rest

/-- Number of `DisasterAlert` rows for one (disaster, user) pair. -/
def pairCount (db : List Alert) (did uid : Nat) : Nat :=
  (db.filter fun a => a.disaster == did && a.user == uid).length

/-- The `unique_together = ('disaster', 'user')` constraint of the
`DisasterAlert` table: at most one row per pair. -/
def uniquePairs (db : List Alert) : Prop :=
  ∀ did uid, pairCount db did uid ≤ 1

/-- The `response_status` choices of the `DisasterResponse` model. -/
inductive ResponseStatus where
  | notified
  | responding
  | on_scene
  | completed
  | cancelled
deriving DecidableEq, Repr

/-- A row of the `DisasterResponse` table (fields the claims are about). -/
structure DisasterResponse where
  disaster : Nat
  service_provider : Nat
  response_status : ResponseStatus
  response_notes : String
deriving DecidableEq, Repr

/-- Row match on the (disaster, service_provider) pair. -/
def respMatches (did pid : Nat) (r : DisasterResponse) : Bool :=
  r.disaster == did && r.service_provider == pid

/-- Update the first row matching the pair (the `.first()` row the view binds
the form to); later rows are untouched. -/
def updateFirst (f : DisasterResponse → DisasterResponse) (did pid : Nat) :
    List DisasterResponse → List DisasterResponse
  | [] => []
  | r :: rest =>
      if respMatches did pid r then f r :: rest
      else r :: updateFirst f did pid rest

/-- `add_response` (`disasters/views.py` lines 323-372): non-providers are
turned away; the disaster is fetched with `status='approved'` (404
otherwise); if a response row for (disaster, provider) exists the form is
bound to it and saving updates it in place, else a new row is created. -/
def add_response (userType : String) (d : Disaster) (provider : Nat)
    (st : ResponseStatus) (notes : String) (db : List DisasterResponse) :
    List DisasterResponse :=
  if userType ≠ "service_provider" then db
  else if d.status ≠ .approved then db
  else if db.any (respMatches d.id provider) then
    updateFirst (fun r => { r with response_status := st, response_notes := notes })
      d.id provider db
  else
    db ++ [{ disaster := d.id, service_provider := provider,
             response_status := st, response_notes := notes }]

/-- Number of `DisasterResponse` rows for one (disaster, provider) pair. -/
def respCount (db : List DisasterResponse) (did pid : Nat) : Nat :=
  (db.filter (respMatches did pid)).length

/-- A sequence of submissions by one provider for one disaster. -/
def submitAll (userType : String) (d : Disaster) (provider : Nat)
    (subs : List (ResponseStatus × String)) (db : List DisasterResponse) :
    List DisasterResponse :=
  subs.foldl (fun acc p => add_response userType d provider p.1 p.2 acc) db

/-- `DisasterForm.clean_description` (`disasters/forms.py` lines 115-122). -/
def clean_description (description : String) : Except String String :=
  if (stripChars description).length > 50 then
    .error "Description must be 50 characters or less."
  else if (stripChars description).length < 10 then
    .error "Description must be at least 10 characters."
  else .ok (stripChars description)

/-- A sample stored disaster row: pending, never approved. -/
def samplePending : Disaster :=
  { id := 7, title := "t", disaster_type := .flood, category := .natural,
    severity := .high, description := "ten chars!", city := "Dhaka",
    area_sector := "Gulshan", reporter := 1, status := .pending,
    approved_by := none, approved_at := none, rejection_reason := "",
    resolved_at := none }

/-- A sample draft disaster row. -/
def sampleDraft : Disaster :=
  { samplePending with id := 8, status := .draft }

/-- A sample approved disaster row. -/
def sampleApproved : Disaster :=
  { samplePending with id := 9, status := .approved }

/-- The reporter of the sample disasters, not a superuser. -/
def reporterUser : User := { id := 1, is_superuser := false }

/-- A superuser. -/
def adminUser : User := { id := 99, is_superuser := true }

/-- A citizen profile of the reporter, in the disaster's own city and area. -/
def reporterProfile : Profile :=
  { user := 1, city := "Dhaka", area_sector := "Gulshan" }

/-- A citizen profile of another user, same city, different area. -/
def neighbourProfile : Profile :=
  { user := 2, city := "Dhaka", area_sector := "Banani" }

theorem save_status (now : Nat) (old : Option Disaster) (d : Disaster) :
    (Disaster.save now old d).status = d.status := by
  cases old <;> simp only [Disaster.save] <;>
    (repeat' split) <;> rfl

theorem save_title (now : Nat) (old : Option Disaster) (d : Disaster) :
    (Disaster.save now old d).title =
      (if d.title = "" then disasterTypeDisplay d.disaster_type ++ " in " ++ d.city
       else d.title) := by
  cases old <;> simp only [Disaster.save] <;>
    (repeat' split) <;> simp_all

theorem save_category (now : Nat) (old : Option Disaster) (d : Disaster) :
    (Disaster.save now old d).category =
      (if d.disaster_type ∈ naturalTypes then Category.natural else Category.manmade) := by
  cases old <;> simp only [Disaster.save] <;>
    (repeat' split) <;> simp_all

theorem save_resolved_at (now : Nat) (old : Option Disaster) (d : Disaster) :
    (Disaster.save now old d).resolved_at = d.resolved_at := by
  cases old <;> simp only [Disaster.save] <;>
    (repeat' split) <;> rfl

theorem save_approved_at (now : Nat) (o d : Disaster) :
    (Disaster.save now (some o) d).approved_at =
      (if o.status ≠ Status.approved ∧ d.status = Status.approved then some now
       else d.approved_at) := by
  simp only [Disaster.save]
  (repeat' split) <;> simp_all

/-- C6: `can_edit` holds exactly for superusers or the reporter while the
status is draft, pending or rejected; `can_delete` exactly for superusers or
the reporter while the status is draft or rejected; hence the reporter of a
pending disaster may edit it but not delete it. -/
theorem can_edit_can_delete (d : Disaster) (u : User) :
    (d.can_edit u = true ↔
      (u.is_superuser = true ∨ (d.reporter = u.id ∧
        (d.status = .draft ∨ d.status = .pending ∨ d.status = .rejected)))) ∧
    (d.can_delete u = true ↔
      (u.is_superuser = true ∨ (d.reporter = u.id ∧
        (d.status = .draft ∨ d.status = .rejected)))) ∧
    (d.status = .pending → u.is_superuser = false → d.reporter = u.id →
      d.can_edit u = true ∧ d.can_delete u = false) := by
  refine ⟨?_, ?_, ?_⟩
  · cases h : u.is_superuser <;>
      simp [Disaster.can_edit, h]
  · cases h : u.is_superuser <;>
      simp [Disaster.can_delete, h]
  · intro hp hs hr
    simp [Disaster.can_edit, Disaster.can_delete, hp, hs, hr]

theorem can_edit_can_delete_witness :
    samplePending.can_edit reporterUser = true ∧
    samplePending.can_delete reporterUser = false :=
  (can_edit_can_delete samplePending reporterUser).2.2 rfl rfl rfl

/-- C7: on every save, a blank title is replaced by
`"{disaster_type display} in {city}"`, and `category` is recomputed as
`natural` exactly when `disaster_type` is in the fixed natural-type set and
`manmade` otherwise, independently of the stored category; for an earthquake
with blank title in city "Dhaka" the saved title is "Earthquake in Dhaka"
and the category `natural`. -/
theorem save_autotitle_autocategory (now : Nat) (old : Option Disaster) (d : Disaster) :
    ((Disaster.save now old d).title =
      (if d.title = "" then disasterTypeDisplay d.disaster_type ++ " in " ++ d.city
       else d.title)) ∧
    ((Disaster.save now old d).category =
      (if d.disaster_type ∈ naturalTypes then Category.natural else Category.manmade)) ∧
    (Disaster.save 0 none
        { samplePending with title := "", disaster_type := .earthquake }).title
      = "Earthquake in Dhaka" ∧
    (Disaster.save 0 none
        { samplePending with title := "", disaster_type := .earthquake }).category
      = Category.natural :=
  ⟨save_title now old d, save_category now old d, by decide, by decide⟩

/-- C10: `clean_description` accepts a description exactly when its stripped
length is between 10 and 50 characters inclusive, returning the stripped
text; anything shorter or longer is rejected with a validation error. -/
theorem description_length_bounds (s : String) :
    (clean_description s).toOption =
      (if 10 ≤ (stripChars s).length ∧ (stripChars s).length ≤ 50
       then some (stripChars s) else none) := by
  simp only [clean_description]
  split
  · next h => rw [if_neg (by omega)]; rfl
  · split
    · next h h2 => rw [if_neg (by omega)]; rfl
    · next h h2 => rw [if_pos (by omega)]; rfl

/-- C5 (amended): `mark_resolved` imposes no status precondition.  A request
by anyone other than the reporter or a superuser leaves the disaster
unchanged; for the reporter or a superuser it sets the status to `resolved`
and `resolved_at` to the current time whatever the current status is. -/
theorem mark_resolved_no_status_guard (actor : User) (now : Nat) (d : Disaster) :
    (d.reporter ≠ actor.id → actor.is_superuser = false →
      mark_resolved actor now d = d) ∧
    (d.reporter = actor.id ∨ actor.is_superuser = true →
      (mark_resolved actor now d).status = Status.resolved ∧
      (mark_resolved actor now d).resolved_at = some now) := by
  constructor
  · intro h1 h2
    rw [mark_resolved, if_pos ⟨h1, by simp [h2]⟩]
  · intro h
    have hcond : ¬(d.reporter ≠ actor.id ∧ ¬actor.is_superuser = true) := by tauto
    refine ⟨?_, ?_⟩
    · rw [mark_resolved, if_neg hcond, save_status]
    · rw [mark_resolved, if_neg hcond, save_resolved_at]

theorem mark_resolved_no_status_guard_witness :
    (mark_resolved adminUser 4 samplePending).status = Status.resolved ∧
    (mark_resolved adminUser 4 samplePending).resolved_at = some 4 :=
  (mark_resolved_no_status_guard adminUser 4 samplePending).2 (Or.inr rfl)

/-- C5 counterexample: a draft disaster is not left unchanged by
`mark_resolved`; the reporter's request moves it from `draft` straight to
`resolved`, so the transition into `resolved` is not restricted to
`approved` disasters. -/
theorem mark_resolved_from_draft :
    sampleDraft.status = Status.draft ∧
    (mark_resolved reporterUser 5 sampleDraft).status = Status.resolved ∧
    mark_resolved reporterUser 5 sampleDraft ≠ sampleDraft := by decide



theorem approve_disaster_rejected_valid (actor : User) (reason : String)
    (now : Nat) (d : Disaster) (citizens service : List Profile) (db : List Alert)
    (hadmin : actor.is_superuser = true) (hr : stripChars reason ≠ "") :
    approve_disaster actor .rejected reason now d citizens service db =
      (Disaster.save now (some d)
        { d with status := .rejected, rejection_reason := reason }, db) := by
  have hv : adminFormValid .rejected reason = true := by
    simp [adminFormValid, hr]
  simp [approve_disaster, hadmin, hv]

/-- C8: admin moderation to `rejected` with a whitespace-only rejection
reason fails form validation and leaves the disaster and the alert table
unchanged; with a non-empty reason it succeeds, the status becomes
`rejected`, and no alerts are dispatched. -/
theorem admin_reject_requires_reason (actor : User) (reason : String)
    (now : Nat) (d : Disaster) (citizens service : List Profile) (db : List Alert)
    (hadmin : actor.is_superuser = true) :
    (stripChars reason = "" →
      approve_disaster actor .rejected reason now d citizens service db = (d, db)) ∧
    (stripChars reason ≠ "" →
      (approve_disaster actor .rejected reason now d citizens service db).1.status
          = Status.rejected ∧
      (approve_disaster actor .rejected reason now d citizens service db).2 = db) := by
  constructor
  · intro h
    simp [approve_disaster, adminFormValid, hadmin, h]
  · intro h
    rw [approve_disaster_rejected_valid actor reason now d citizens service db hadmin h]
    exact ⟨save_status .., rfl⟩

theorem admin_reject_requires_reason_witness :
    (stripChars " " = "" ∧
      approve_disaster adminUser .rejected " " 2 samplePending [] [] []
        = (samplePending, [])) ∧
    (stripChars "spam" ≠ "" ∧
      (approve_disaster adminUser .rejected "spam" 2 samplePending [] [] []).1.status
          = Status.rejected ∧
      (approve_disaster adminUser .rejected "spam" 2 samplePending [] [] []).2 = []) :=
  ⟨⟨by decide,
    (admin_reject_requires_reason adminUser " " 2 samplePending [] [] [] rfl).1
      (by decide)⟩,
   ⟨by decide,
    (admin_reject_requires_reason adminUser "spam" 2 samplePending [] [] [] rfl).2
      (by decide)⟩⟩

theorem respCount_append (db l : List DisasterResponse) (did pid : Nat) :
    respCount (db ++ l) did pid = respCount db did pid + respCount l did pid := by
  simp [respCount, List.filter_append]

theorem respAny_false_iff (db : List DisasterResponse) (did pid : Nat) :
    db.any (respMatches did pid) = false ↔ respCount db did pid = 0 := by
  simp [respCount]

theorem respCount_updateFirst (st : ResponseStatus) (notes : String)
    (did pid : Nat) (db : List DisasterResponse) :
    respCount
      (updateFirst (fun r => { r with response_status := st, response_notes := notes })
        did pid db) did pid = respCount db did pid := by
  induction db with
  | nil => rfl
  | cons r rest ih =>
      cases h : respMatches did pid r
      · simp only [updateFirst, h, Bool.false_eq_true, if_false]
        simp only [respCount, List.filter_cons, h, Bool.false_eq_true, if_false]
        simpa [respCount] using ih
      · have hf : respMatches did pid
            ({ r with response_status := st, response_notes := notes }) = true := h
        simp [updateFirst, h, respCount, List.filter_cons, hf]

theorem add_response_count (userType : String) (d : Disaster) (provider : Nat)
    (st : ResponseStatus) (notes : String) (db : List DisasterResponse)
    (hs : d.status = Status.approved) (hu : userType = "service_provider") :
    respCount (add_response userType d provider st notes db) d.id provider
      = max (respCount db d.id provider) 1 := by
  rw [add_response, if_neg (by simp [hu]), if_neg (by simp [hs])]
  cases hex : db.any (respMatches d.id provider)
  · have h0 : respCount db d.id provider = 0 := (respAny_false_iff db d.id provider).1 hex
    rw [if_neg Bool.false_ne_true, respCount_append, h0]
    have h1 : respCount
        [{ disaster := d.id, service_provider := provider,
           response_status := st, response_notes := notes }] d.id provider = 1 := by
      simp [respCount, respMatches]
    omega
  · have h0 : respCount db d.id provider ≠ 0 := by
      intro hz
      rw [(respAny_false_iff db d.id provider).2 hz] at hex
      cases hex
    rw [if_pos rfl, respCount_updateFirst]
    omega

theorem submitAll_count (userType : String) (d : Disaster) (provider : Nat)
    (subs : List (ResponseStatus × String)) (db : List DisasterResponse)
    (hs : d.status = Status.approved) (hu : userType = "service_provider") :
    respCount (submitAll userType d provider subs db) d.id provider
      = (if subs = [] then respCount db d.id provider
         else max (respCount db d.id provider) 1) := by
  induction subs generalizing db with
  | nil => rfl
  | cons p rest ih =>
      have hstep : submitAll userType d provider (p :: rest) db
          = submitAll userType d provider rest
              (add_response userType d provider p.1 p.2 db) := rfl
      rw [hstep, ih, add_response_count userType d provider p.1 p.2 db hs hu,
        if_neg (List.cons_ne_nil p rest)]
      split <;> omega

/-- C9: submitting a response for an approved disaster is an upsert — the
row count for the (disaster, provider) pair becomes `max(count, 1)`, so an
existing row is updated in place rather than duplicated, and after any
non-empty sequence of submissions starting from a pair with no row exactly
one row exists. -/
theorem response_upsert (userType : String) (d : Disaster) (provider : Nat)
    (st : ResponseStatus) (notes : String) (db : List DisasterResponse)
    (hs : d.status = Status.approved) (hu : userType = "service_provider") :
    (respCount (add_response userType d provider st notes db) d.id provider
      = max (respCount db d.id provider) 1) ∧
    (∀ subs : List (ResponseStatus × String), respCount db d.id provider = 0 →
      subs ≠ [] →
      respCount (submitAll userType d provider subs db) d.id provider = 1) := by
  constructor
  · exact add_response_count userType d provider st notes db hs hu
  · intro subs h0 hne
    rw [submitAll_count userType d provider subs db hs hu, if_neg hne, h0]
    omega

theorem response_upsert_witness :
    respCount
      (add_response "service_provider" sampleApproved 3
        ResponseStatus.responding "on the way" []) sampleApproved.id 3
      = max (respCount [] sampleApproved.id 3) 1 ∧
    respCount
      (submitAll "service_provider" sampleApproved 3
        [(ResponseStatus.notified, "a"), (ResponseStatus.on_scene, "b")] [])
      sampleApproved.id 3 = 1 := by
  refine ⟨(response_upsert "service_provider" sampleApproved 3
      ResponseStatus.responding "on the way" [] (by decide) rfl).1, ?_⟩
  exact (response_upsert "service_provider" sampleApproved 3
      ResponseStatus.responding "on the way" [] (by decide) rfl).2
    [(ResponseStatus.notified, "a"), (ResponseStatus.on_scene, "b")] (by decide)
    (by decide)



theorem alertExists_append (db l : List Alert) (did uid : Nat) :
    alertExists (db ++ l) did uid
      = (alertExists db did uid || alertExists l did uid) := by
  simp [alertExists, List.any_append]

theorem alertExists_singleton (a : Alert) (did uid : Nat) :
    alertExists [a] did uid = (a.disaster == did && a.user == uid) := by
  simp [alertExists]

theorem bulkCreate_cons (db : List Alert) (a : Alert) (rest : List Alert) :
    bulkCreate db (a :: rest)
      = bulkCreate (if alertExists db a.disaster a.user then db else db ++ [a])
          rest := rfl

theorem bulkCreate_exists_mono (pending : List Alert) :
    ∀ (db : List Alert) (did uid : Nat), alertExists db did uid = true →
      alertExists (bulkCreate db pending) did uid = true := by
  induction pending with
  | nil => intro db did uid h; exact h
  | cons a rest ih =>
      intro db did uid h
      rw [bulkCreate_cons]
      apply ih
      split
      · exact h
      · simp [alertExists_append, h]

theorem bulkCreate_exists_of_mem (a : Alert) :
    ∀ (pending db : List Alert), a ∈ pending →
      alertExists (bulkCreate db pending) a.disaster a.user = true := by
  intro pending
  induction pending with
  | nil => intro db ha; cases ha
  | cons b rest ih =>
      intro db ha
      rw [bulkCreate_cons]
      rcases List.mem_cons.1 ha with h | h
      · subst h
        apply bulkCreate_exists_mono
        split
        · next hx => exact hx
        · simp [alertExists_append, alertExists_singleton]
      · exact ih _ h

theorem mem_bulkCreate (pending : List Alert) :
    ∀ (db : List Alert) (a : Alert), a ∈ bulkCreate db pending →
      a ∈ db ∨ a ∈ pending := by
  induction pending with
  | nil => intro db a h; exact Or.inl h
  | cons b rest ih =>
      intro db a h
      rw [bulkCreate_cons] at h
      rcases ih _ a h with h2 | h2
      · by_cases hx : alertExists db b.disaster b.user = true
        · rw [if_pos hx] at h2
          exact Or.inl h2
        · rw [if_neg hx] at h2
          rcases List.mem_append.1 h2 with h3 | h3
          · exact Or.inl h3
          · right
            rw [List.mem_singleton.1 h3]
            exact List.mem_cons_self b rest
      · exact Or.inr (List.mem_cons_of_mem b h2)

theorem mem_collectAlerts_intro (d : Disaster) (db : List Alert)
    (profiles : List Profile) (p : Profile) (hp : p ∈ profiles)
    (hc : p.city = d.city) (hn : alertExists db d.id p.user = false) :
    ({ disaster := d.id, user := p.user, match_type := matchTypeFor d p } : Alert)
      ∈ collectAlerts d db profiles := by
  simp only [collectAlerts, List.mem_map]
  refine ⟨p, ?_, rfl⟩
  simp [List.mem_filter, hp, hc, hn]

theorem mem_collectAlerts_elim (d : Disaster) (db : List Alert)
    (profiles : List Profile) (a : Alert) (ha : a ∈ collectAlerts d db profiles) :
    ∃ p, p ∈ profiles ∧ p.city = d.city ∧ alertExists db d.id p.user = false ∧
      a = { disaster := d.id, user := p.user, match_type := matchTypeFor d p } := by
  simp only [collectAlerts, List.mem_map, List.mem_filter] at ha
  obtain ⟨p, ⟨⟨hp, hc⟩, hn⟩, rfl⟩ := ha
  exact ⟨p, hp, by simpa using hc, by simpa using hn, rfl⟩

theorem send_covers (d : Disaster) (citizens service : List Profile)
    (db : List Alert) (p : Profile) (hp : p ∈ citizens ++ service)
    (hc : p.city = d.city) :
    alertExists (send_disaster_alerts d citizens service db).1 d.id p.user = true := by
  cases hn : alertExists db d.id p.user
  · have hmem : Alert.mk d.id p.user (matchTypeFor d p)
        ∈ collectAlerts d db citizens ++ collectAlerts d db service := by
      rcases List.mem_append.1 hp with h | h
      · exact List.mem_append_left _ (mem_collectAlerts_intro d db citizens p h hc hn)
      · exact List.mem_append_right _ (mem_collectAlerts_intro d db service p h hc hn)
    exact bulkCreate_exists_of_mem _ _ db hmem
  · exact bulkCreate_exists_mono _ db d.id p.user hn

theorem pairCount_append (db l : List Alert) (did uid : Nat) :
    pairCount (db ++ l) did uid = pairCount db did uid + pairCount l did uid := by
  simp [pairCount, List.filter_append]

theorem alertExists_false_iff (db : List Alert) (did uid : Nat) :
    alertExists db did uid = false ↔ pairCount db did uid = 0 := by
  simp [alertExists, pairCount]

theorem bulkCreate_uniquePairs (pending : List Alert) :
    ∀ db : List Alert, uniquePairs db → uniquePairs (bulkCreate db pending) := by
  induction pending with
  | nil => intro db h; exact h
  | cons a rest ih =>
      intro db h
      rw [bulkCreate_cons]
      apply ih
      split
      · exact h
      · next hx =>
        intro did uid
        rw [pairCount_append]
        have h1 := h did uid
        by_cases hm : (a.disaster == did && a.user == uid) = true
        · have hone : pairCount [a] did uid = 1 := by
            simp [pairCount, List.filter_cons, hm]
          have heq : a.disaster = did ∧ a.user = uid := by simpa using hm
          have h0 : pairCount db did uid = 0 := by
            rw [← heq.1, ← heq.2]
            exact (alertExists_false_iff db a.disaster a.user).1
              (Bool.eq_false_iff.mpr hx)
          omega
        · have hb : (a.disaster == did && a.user == uid) = false := by
            cases hmm : (a.disaster == did && a.user == uid)
            · rfl
            · exact absurd hmm hm
          have hzero : pairCount [a] did uid = 0 := by
            simp [pairCount, List.filter_cons, hb]
          omega

/-- C1: `send_disaster_alerts` is idempotent.  Starting from an alert table
satisfying the (disaster, user) uniqueness constraint, the table after a
dispatch still has at most one alert per (disaster, user) pair, and a second
invocation on the same disaster returns the table unchanged with zero new
alerts. -/
theorem alerts_idempotent (d : Disaster) (citizens service : List Profile)
    (db : List Alert) (h : uniquePairs db) :
    uniquePairs (send_disaster_alerts d citizens service db).1 ∧
    send_disaster_alerts d citizens service
        (send_disaster_alerts d citizens service db).1
      = ((send_disaster_alerts d citizens service db).1, 0) := by
  constructor
  · exact bulkCreate_uniquePairs _ db h
  · set R := (send_disaster_alerts d citizens service db).1 with hR
    have hcit : collectAlerts d R citizens = [] := by
      rw [List.eq_nil_iff_forall_not_mem]
      intro a ha
      obtain ⟨p, hp, hc, hn, rfl⟩ := mem_collectAlerts_elim d R citizens a ha
      have hcov := send_covers d citizens service db p (List.mem_append_left _ hp) hc
      rw [← hR] at hcov
      rw [hcov] at hn
      cases hn
    have hserv : collectAlerts d R service = [] := by
      rw [List.eq_nil_iff_forall_not_mem]
      intro a ha
      obtain ⟨p, hp, hc, hn, rfl⟩ := mem_collectAlerts_elim d R service a ha
      have hcov := send_covers d citizens service db p (List.mem_append_right _ hp) hc
      rw [← hR] at hcov
      rw [hcov] at hn
      cases hn
    have hunf : send_disaster_alerts d citizens service R
        = (bulkCreate R (collectAlerts d R citizens ++ collectAlerts d R service),
           (collectAlerts d R citizens ++ collectAlerts d R service).length) := rfl
    rw [hunf, hcit, hserv]
    rfl

theorem alerts_idempotent_witness :
    uniquePairs ([] : List Alert) ∧
    uniquePairs
      (send_disaster_alerts samplePending [reporterProfile, neighbourProfile]
        [] []).1 ∧
    send_disaster_alerts samplePending [reporterProfile, neighbourProfile] []
        (send_disaster_alerts samplePending [reporterProfile, neighbourProfile]
          [] []).1
      = ((send_disaster_alerts samplePending [reporterProfile, neighbourProfile]
          [] []).1, 0) := by
  have h0 : uniquePairs ([] : List Alert) := by
    show ∀ did uid, pairCount ([] : List Alert) did uid ≤ 1
    intro did uid
    simp [pairCount]
  have h := alerts_idempotent samplePending [reporterProfile, neighbourProfile] [] [] h0
  exact ⟨h0, h.1, h.2⟩

/-- C2: every alert created by a dispatch belongs to a profile in the
disaster's city and carries `exact` when the areas match, else `critical`
when the severity is critical, else `city` (area match takes precedence over
severity); and every same-city profile has an alert after the dispatch. -/
theorem alert_match_tiers (d : Disaster) (citizens service : List Profile)
    (db : List Alert) :
    (∀ a : Alert, a ∈ (send_disaster_alerts d citizens service db).1 → a ∉ db →
      ∃ p : Profile, p ∈ citizens ++ service ∧ p.city = d.city ∧
        a.disaster = d.id ∧ a.user = p.user ∧
        a.match_type = (if p.area_sector = d.area_sector then MatchType.exact
          else if d.severity = Severity.critical then MatchType.critical
          else MatchType.city)) ∧
    (∀ p : Profile, p ∈ citizens ++ service → p.city = d.city →
      alertExists (send_disaster_alerts d citizens service db).1 d.id p.user
        = true) := by
  constructor
  · intro a ha hnotdb
    rcases mem_bulkCreate _ db a ha with h | h
    · exact absurd h hnotdb
    · rcases List.mem_append.1 h with h2 | h2
      · obtain ⟨p, hp, hc, hn, ha2⟩ := mem_collectAlerts_elim d db citizens a h2
        subst ha2
        exact ⟨p, List.mem_append_left _ hp, hc, rfl, rfl, rfl⟩
      · obtain ⟨p, hp, hc, hn, ha2⟩ := mem_collectAlerts_elim d db service a h2
        subst ha2
        exact ⟨p, List.mem_append_right _ hp, hc, rfl, rfl, rfl⟩
  · intro p hp hc
    exact send_covers d citizens service db p hp hc

theorem alert_match_tiers_witness :
    alertExists
      (send_disaster_alerts samplePending [reporterProfile, neighbourProfile]
        [] []).1 samplePending.id 2 = true :=
  (alert_match_tiers samplePending [reporterProfile, neighbourProfile] [] []).2
    neighbourProfile (by decide) (by decide)

/-- C4 (amended): `send_disaster_alerts` does not exclude the disaster's
reporter.  Whenever the reporter owns a profile in the disaster's city, the
dispatched table contains an alert whose recipient is the reporter. -/
theorem reporter_not_excluded (d : Disaster) (citizens service : List Profile)
    (db : List Alert) (p : Profile) (hp : p ∈ citizens ++ service)
    (hrep : p.user = d.reporter) (hc : p.city = d.city) :
    alertExists (send_disaster_alerts d citizens service db).1 d.id d.reporter
      = true := by
  have h := send_covers d citizens service db p hp hc
  rwa [hrep] at h

theorem reporter_not_excluded_witness :
    alertExists (send_disaster_alerts samplePending [reporterProfile] [] []).1
      samplePending.id samplePending.reporter = true :=
  reporter_not_excluded samplePending [reporterProfile] [] [] reporterProfile
    (by decide) (by decide) (by decide)

/-- C4 counterexample: the reporter of `samplePending` (user 1) owns a
citizen profile in the disaster's city, and dispatching alerts creates a
`DisasterAlert` whose recipient is exactly that reporter. -/
theorem reporter_alert_created :
    samplePending.reporter = 1 ∧
    (send_disaster_alerts samplePending [reporterProfile] [] []).1
      = [{ disaster := 7, user := 1, match_type := MatchType.exact }] := by
  decide



theorem everApproved_of_status (ops : List Op) (d : Disaster)
    (h : d.status = Status.approved) : everApproved d ops := by
  cases ops with
  | nil => exact h
  | cons op rest => exact Or.inl h

theorem applyOp_approved_at (op : Op) (d : Disaster)
    (hK : d.status = Status.approved → d.approved_at ≠ none) :
    ((applyOp op d).approved_at ≠ none ↔
      (d.approved_at ≠ none ∨ (applyOp op d).status = Status.approved)) := by
  cases op with
  | moderate actor s r now =>
      cases ha : actor.is_superuser
      · simp only [applyOp, approve_disaster, ha, Bool.not_false, if_true]
        tauto
      · cases hv : adminFormValid s r
        · simp only [applyOp, approve_disaster, ha, hv, Bool.not_true,
            Bool.not_false, Bool.false_eq_true, if_false, if_true]
          tauto
        · simp only [applyOp, approve_disaster, ha, hv, Bool.not_true,
            Bool.false_eq_true, if_false]
          by_cases hb : s = Status.approved ∧ d.status ≠ Status.approved
          · rw [if_pos hb]
            simp only [save_status, save_approved_at]
            rw [if_pos ⟨hb.2, hb.1⟩]
            simp [hb.1]
          · rw [if_neg hb]
            simp only [save_status, save_approved_at]
            rw [if_neg (by tauto)]
            constructor
            · exact Or.inl
            · rintro (h | h)
              · exact h
              · have hds : d.status = Status.approved := by tauto
                exact hK hds
  | resolve actor now =>
      by_cases hperm : d.reporter ≠ actor.id ∧ ¬actor.is_superuser = true
      · simp only [applyOp, mark_resolved, if_pos hperm]
        tauto
      · simp only [applyOp, mark_resolved, if_neg hperm, save_status,
          save_approved_at]
        rw [if_neg (by simp)]
        simp
  | submit now =>
      simp only [applyOp, save_status, save_approved_at]
      rw [if_neg (by simp)]
      simp
  | edit actor t ty sev descr city area now =>
      by_cases hedit : d.can_edit actor = true
      · simp only [applyOp, if_pos hedit, save_status, save_approved_at]
        rw [if_neg (by simp)]
        tauto
      · simp only [applyOp, if_neg hedit]
        tauto

theorem runOps_approved_at (ops : List Op) :
    ∀ d : Disaster, (d.status = Status.approved → d.approved_at ≠ none) →
      ((runOps d ops).approved_at ≠ none ↔
        (d.approved_at ≠ none ∨ everApproved d ops)) := by
  induction ops with
  | nil =>
      intro d hK
      simp only [runOps, everApproved]
      constructor
      · exact Or.inl
      · rintro (h | h)
        · exact h
        · exact hK h
  | cons op rest ih =>
      intro d hK
      have hstep := applyOp_approved_at op d hK
      have hK2 : (applyOp op d).status = Status.approved →
          (applyOp op d).approved_at ≠ none := fun h => hstep.mpr (Or.inr h)
      have hrun := ih (applyOp op d) hK2
      have habs := everApproved_of_status rest (applyOp op d)
      simp only [runOps, everApproved]
      rw [hrun, hstep]
      tauto

/-- C3 (amended): starting from a disaster that has never been approved,
`approved_at` is set after a run of operations exactly when the run passes
through status `approved`; but `approved_at` is not immutable once set — it
is re-stamped on every later transition into `approved` from a non-approved
status (see the counterexample for approve, resolve, re-approve). -/
theorem approved_at_iff_ever_approved (d : Disaster) (ops : List Op)
    (h0 : d.approved_at = none) (h1 : d.status ≠ Status.approved) :
    ((runOps d ops).approved_at ≠ none ↔ everApproved d ops) := by
  have hK : d.status = Status.approved → d.approved_at ≠ none :=
    fun h => absurd h h1
  rw [runOps_approved_at ops d hK, h0]
  simp

theorem approved_at_iff_ever_approved_witness :
    samplePending.approved_at = none ∧
    samplePending.status ≠ Status.approved ∧
    ((runOps samplePending [Op.moderate adminUser .approved "" 1]).approved_at
        ≠ none ↔
      everApproved samplePending [Op.moderate adminUser .approved "" 1]) :=
  ⟨rfl, by decide,
   approved_at_iff_ever_approved samplePending
     [Op.moderate adminUser .approved "" 1] rfl (by decide)⟩

/-- C3 counterexample: approve at time 1, resolve at time 2, re-approve at
time 3.  After the first approval `approved_at = some 1`; after the
re-approval it is `some 3`, so `approved_at` is changed again after it was
first set, refuting the once-and-never-again part of the claim. -/
theorem approved_at_restamped :
    (runOps samplePending [Op.moderate adminUser .approved "" 1]).approved_at
      = some 1 ∧
    (runOps samplePending
        [Op.moderate adminUser .approved "" 1, Op.resolve reporterUser 2,
         Op.moderate adminUser .approved "" 3]).approved_at = some 3 := by
  decide


end ERAS
